import Mathlib

/-!
Verification of `src/vram_guard.py` (neral-vram-guard).

Shallow embedding: Python text is modeled as `List Char`; Python `float`
values are modeled as rationals `ℚ`; Python `int` as `ℤ`.  Each interaction
with the outside world (the `nvidia-smi` subprocess, the HTTP requests to
the Ollama service) is parameterized by an environment value describing
what the outside world does on that interaction, including the possibility
that the interaction raises a Python exception.  `Except PyExc α` models a
step that may raise an exception escaping to the enclosing handler:
`PyExc.exception` is a catchable `Exception`, `PyExc.keyboardInterrupt` is
`KeyboardInterrupt` (a `BaseException` that only the loop-level
`except KeyboardInterrupt` handler catches).
-/

namespace VramGuard

/-- Python text (a `str`) modeled as its sequence of characters. -/
abbrev PyStr := List Char

/-- Python `str.strip()`: remove leading and trailing whitespace. -/
def pyStrip (cs : PyStr) : PyStr :=
  ((cs.dropWhile Char.isWhitespace).reverse.dropWhile Char.isWhitespace).reverse

/-- Python `str.splitlines()` on text whose line separator is a newline
character (the form `nvidia-smi --format=csv,noheader,nounits` produces).
It is applied in the source only after `strip()`, so the text has no
leading or trailing newline, where splitting at each newline coincides
with `splitlines`. -/
def splitLines : PyStr → List PyStr
  | [] => [[]]
  | c :: cs =>
    if c = '\n' then [] :: splitLines cs
    else
      match splitLines cs with
      | [] => [[c]]
      | l :: ls => (c :: l) :: ls

/-- Value of a list of decimal digit characters, most significant first. -/
def digitsToNat (ds : PyStr) : ℕ :=
  ds.foldl (fun a c => 10 * a + (c.toNat - 48)) 0

/-- Scale a parsed mantissa by the optional exponent part `e`/`E` of a
Python float literal; `none` when `float()` would raise `ValueError`. -/
def pyFloatExp (neg : Bool) (mant : ℚ) (r : PyStr) : Option ℚ :=
  let (eneg, r1) :=
    match r with
    | '-' :: r2 => (true, r2)
    | '+' :: r2 => (false, r2)
    | r2 => (false, r2)
  let ed := r1.takeWhile Char.isDigit
  let rest := r1.dropWhile Char.isDigit
  if ed.isEmpty || !rest.isEmpty then none
  else
    let m2 := if eneg then mant / ((10 : ℚ) ^ digitsToNat ed)
              else mant * ((10 : ℚ) ^ digitsToNat ed)
    some (if neg then -m2 else m2)

/-- Python `float(s)` on a decimal numeral: optional surrounding
whitespace, optional sign, digits with an optional fractional part and an
optional decimal exponent.  Returns `none` exactly when `float()` would
raise `ValueError` (the special forms `inf`/`nan` and digit-group
underscores, which `nvidia-smi` never emits, are outside the model and
map to `none`). -/
def pyFloat (s : PyStr) : Option ℚ :=
  let t := pyStrip s
  let (neg, t1) :=
    match t with
    | '-' :: r => (true, r)
    | '+' :: r => (false, r)
    | r => (false, r)
  let ip := t1.takeWhile Char.isDigit
  let t2 := t1.dropWhile Char.isDigit
  let (fp, t3) :=
    match t2 with
    | '.' :: r => (r.takeWhile Char.isDigit, r.dropWhile Char.isDigit)
    | r => ([], r)
  if ip.isEmpty && fp.isEmpty then none
  else
    let mant : ℚ :=
      if fp.isEmpty then (digitsToNat ip : ℚ)
      else (digitsToNat ip : ℚ) + (digitsToNat fp : ℚ) / ((10 : ℚ) ^ fp.length)
    match t3 with
    | [] => some (if neg then -mant else mant)
    | 'e' :: r => pyFloatExp neg mant r
    | 'E' :: r => pyFloatExp neg mant r
    | _ => none

/-- Outcome of one invocation of the `nvidia-smi` subprocess
(`subprocess.run` under `asyncio.to_thread`):
`notFound` is `FileNotFoundError` (tool absent), `raised` is any other
exception out of the invocation, `completed rc out` is a completed process
with exit code `rc` and standard output `out`. -/
inductive SmiResult
  | notFound
  | raised
  | completed (returncode : ℤ) (stdout : PyStr)
deriving DecidableEq, Repr

/-- `VRAMManager.get_vram_usage` (src/vram_guard.py lines 26–51).
The `try` block runs the tool; on `returncode == 0` with non-empty
stripped output it sums `float(line)` over the stripped output's lines —
a `ValueError` from any malformed line is caught by `except Exception`.
Every failure path (`FileNotFoundError`, any other exception, non-zero
exit, empty output) falls through to `return 0.0`, so the function is
total: it never raises to its caller. -/
def get_vram_usage : SmiResult → ℚ
  | SmiResult.notFound => 0
  | SmiResult.raised => 0
  | SmiResult.completed rc out =>
    if rc = 0 ∧ pyStrip out ≠ [] then
      match (splitLines (pyStrip out)).mapM pyFloat with
      | some vals => vals.sum
      | none => 0
    else 0

/-- One entry of the `models` array returned by `GET /api/ps`; the loop
reads only `model.get('name')`, which is `None` (here `none`) when the
`name` key is absent. -/
structure ModelEntry where
  name : Option String
deriving DecidableEq, Repr

/-- Body of a `GET /api/ps` response: `badJson` makes `resp.json()` raise
(caught by the enclosing handler); otherwise the parsed object, whose
`models` key may be absent (`none`, in which case `.get('models', [])`
yields the default `[]`). -/
inductive PsBody
  | badJson
  | json (models : Option (List ModelEntry))
deriving DecidableEq, Repr

/-- Outcome of one `GET /api/ps` interaction: `raised` is any exception
out of the request (connection refused, timeout, DNS failure, ...),
otherwise an HTTP response with a status code and a body. -/
inductive PsResult
  | raised
  | response (status : ℕ) (body : PsBody)
deriving DecidableEq, Repr

/-- `VRAMManager.get_loaded_models` (src/vram_guard.py lines 53–63).
On a 200 response it returns `data.get('models', [])`; a body that fails
to parse raises inside the `try` and is caught; a non-200 response falls
out of the `if` without returning; every one of those paths reaches the
final `return []`.  Total: never raises to its caller. -/
def get_loaded_models : PsResult → List ModelEntry
  | PsResult.raised => []
  | PsResult.response status body =>
    if status = 200 then
      match body with
      | PsBody.badJson => []
      | PsBody.json none => []
      | PsBody.json (some ms) => ms
    else []

/-- Outcome of one `POST /api/generate` interaction: `raised` is any
exception out of the request, otherwise an HTTP response status. -/
inductive GenResult
  | raised
  | response (status : ℕ)
deriving DecidableEq, Repr

/-- An outbound network call attempt made by the program: the read of
`{url}/api/ps`, or a `POST {url}/api/generate` carrying the JSON payload
with the target model name and a `keep_alive` value. -/
inductive Request
  | getPs
  | postGenerate (model : Option String) (keepAlive : ℤ)
deriving DecidableEq, Repr

/-- A Python exception escaping one step, as the loop's handlers
distinguish them: `exception` is any `Exception` (the catchable kind),
`keyboardInterrupt` is `KeyboardInterrupt`. -/
inductive PyExc
  | exception
  | keyboardInterrupt
deriving DecidableEq, Repr

/-- Log classification of one `unload_model` call, mirroring the four
log statements of the source. -/
inductive UnloadLog
  | dryRunMsg
  | successMsg
  | failWarn (status : ℕ)
  | errorMsg
deriving DecidableEq, Repr

/-- The spec's `evict` outcome abstraction over `unload_model`'s logs:
the dry-run path and the 200 path complete without reporting a failure
(`Success`); a non-200 status or a caught exception is reported as a
failure (`Failure`). -/
inductive EvictOutcome
  | success
  | failure
deriving DecidableEq, Repr

/-- Map an `unload_model` log classification to the spec's outcome. -/
def UnloadLog.outcome : UnloadLog → EvictOutcome
  | UnloadLog.dryRunMsg => EvictOutcome.success
  | UnloadLog.successMsg => EvictOutcome.success
  | UnloadLog.failWarn _ => EvictOutcome.failure
  | UnloadLog.errorMsg => EvictOutcome.failure

/-- Mirror of the `VRAMManager` constructor state (src/vram_guard.py
lines 19–24): the four configuration fields plus the `platform.system()`
string captured at construction. -/
structure VRAMManager where
  threshold_mb : ℤ
  ollama_url : String
  interval : ℤ
  dry_run : Bool
  system : String
deriving DecidableEq, Repr

/-- `VRAMManager.unload_model` (src/vram_guard.py lines 65–85), given the
environment's behavior `genv` for the `POST /api/generate` interaction.
Returns the outbound call attempts made and either the log classification
of the completed call or the exception escaping it.  In dry-run mode the
function returns before any network interaction, so `genv` is never
consulted.  A `GenResult.raised` exception is caught by the function's own
`except Exception` handler (`errorMsg`); an `Except.error` in `genv`
models an exception the handler does not catch, which escapes to the
caller. -/
def unload_model (m : VRAMManager) (name : Option String)
    (genv : Except PyExc GenResult) : List Request × Except PyExc UnloadLog :=
  if m.dry_run then ([], Except.ok UnloadLog.dryRunMsg)
  else
    match genv with
    | Except.error e => ([Request.postGenerate name 0], Except.error e)
    | Except.ok GenResult.raised =>
      ([Request.postGenerate name 0], Except.ok UnloadLog.errorMsg)
    | Except.ok (GenResult.response status) =>
      if status = 200 then
        ([Request.postGenerate name 0], Except.ok UnloadLog.successMsg)
      else
        ([Request.postGenerate name 0], Except.ok (UnloadLog.failWarn status))

/-- The `for model in loaded: await self.unload_model(name)` loop of
`monitor_loop` (src/vram_guard.py lines 110–114), over the names of the
listed models; `gens i` is the environment's behavior for the `i`-th
eviction interaction of this pass.  Evictions proceed sequentially, in
list order; an exception escaping one `unload_model` call aborts the
remaining iterations and escapes the pass. -/
def evictAll (m : VRAMManager) (gens : ℕ → Except PyExc GenResult) :
    List (Option String) → ℕ → List Request × Option PyExc
  | [], _ => ([], none)
  | name :: rest, i =>
    match (unload_model m name (gens i)).2 with
    | Except.error e => ((unload_model m name (gens i)).1, some e)
    | Except.ok _ =>
      ((unload_model m name (gens i)).1 ++ (evictAll m gens rest (i + 1)).1,
        (evictAll m gens rest (i + 1)).2)

/-- Environment for one tick of the monitor loop: what the outside world
does on the sampling interaction, on the model-listing interaction (if
reached), and on each eviction interaction (if reached; `gens i` for the
`i`-th eviction of the tick).  An `Except.error` at the sampling or
listing position models an exception escaping that step to the loop-level
handlers (the inner functions already catch `Exception`, so in practice
that is `KeyboardInterrupt`; the loop handles either kind). -/
structure TickEnv where
  sample : Except PyExc SmiResult
  ps : Except PyExc PsResult
  gens : ℕ → Except PyExc GenResult

/-- What one execution of the body of the `while True:` tick did:
the sample value obtained (`none` if sampling raised before producing
one), the outbound call attempts made, and the exception escaping the
`try` body (`none` if it completed). -/
structure TickRec where
  vram : Option ℚ
  requests : List Request
  exc : Option PyExc
deriving DecidableEq, Repr

/-- The tick decision of `monitor_loop` (src/vram_guard.py lines 99–102)
as the pure function of the sampled value, the threshold and the platform
string: the `if vram_used == 0.0 and self.system != "Darwin"` branch does
not remediate; the `elif vram_used > self.threshold_mb` branch starts a
remediation pass; the final `else` does not remediate. -/
def remediationTriggered (vram : ℚ) (threshold : ℤ) (sys : String) : Bool :=
  if vram = 0 ∧ sys ≠ "Darwin" then false
  else if vram > (threshold : ℚ) then true
  else false

/-- The `try` body of one tick of `VRAMManager.monitor_loop`
(src/vram_guard.py lines 95–121): sample; if the sample is `0.0` on a
non-Darwin platform, only log; else if the sample exceeds the threshold,
list the loaded models and, when the list is non-empty, evict each in
order; else only log.  The final `await asyncio.sleep` is recorded by the
loop, not here. -/
def runTick (m : VRAMManager) (env : TickEnv) : TickRec :=
  match env.sample with
  | Except.error e => ⟨none, [], some e⟩
  | Except.ok smi =>
    let vram := get_vram_usage smi
    if vram = 0 ∧ m.system ≠ "Darwin" then ⟨some vram, [], none⟩
    else if vram > (m.threshold_mb : ℚ) then
      match env.ps with
      | Except.error e => ⟨some vram, [Request.getPs], some e⟩
      | Except.ok psr =>
        let loaded := get_loaded_models psr
        if loaded = [] then ⟨some vram, [Request.getPs], none⟩
        else
          ⟨some vram,
            Request.getPs :: (evictAll m env.gens (loaded.map ModelEntry.name) 0).1,
            (evictAll m env.gens (loaded.map ModelEntry.name) 0).2⟩
    else ⟨some vram, [], none⟩

/-- How one tick ended: `slept s` means the loop executed
`await asyncio.sleep(s)` and proceeds to the next tick (either the normal
sleep at the end of the `try` body, or the one in the
`except Exception` handler); `interrupted` means the
`except KeyboardInterrupt` handler ran `break`. -/
inductive TickOutcome
  | slept (seconds : ℤ)
  | interrupted
deriving DecidableEq, Repr

/-- Dispatch of the tick body's ending to the loop's handlers
(src/vram_guard.py lines 121–128): a completed body sleeps; a
`KeyboardInterrupt` breaks; any other exception is logged and sleeps. -/
def tickOutcome (m : VRAMManager) (r : TickRec) : TickOutcome :=
  match r.exc with
  | some PyExc.keyboardInterrupt => TickOutcome.interrupted
  | some PyExc.exception => TickOutcome.slept m.interval
  | none => TickOutcome.slept m.interval

/-- Whether the `while True:` loop is still running after the modeled
ticks (it would execute another tick) or was stopped by `break`. -/
inductive LoopStatus
  | running
  | stopped
deriving DecidableEq, Repr

/-- `VRAMManager.monitor_loop` (src/vram_guard.py lines 94–128) run
against a finite prefix of tick environments: one tick per environment,
in order, recording each tick and how it ended; a `break` stops the loop
early. -/
def monitor_loop (m : VRAMManager) :
    List TickEnv → List (TickRec × TickOutcome) × LoopStatus
  | [] => ([], LoopStatus.running)
  | env :: rest =>
    let r := runTick m env
    match tickOutcome m r with
    | TickOutcome.interrupted =>
      ([(r, TickOutcome.interrupted)], LoopStatus.stopped)
    | TickOutcome.slept s =>
      ((r, TickOutcome.slept s) :: (monitor_loop m rest).1, (monitor_loop m rest).2)

/-- The `--clear-now` branch of `main` (src/vram_guard.py lines 148–156):
list the loaded models once and, when the list is non-empty, unload each
in order; the threshold field of the manager is never read.  Returns the
outbound call attempts and the exception escaping the branch, if any. -/
def clear_now (m : VRAMManager) (ps : Except PyExc PsResult)
    (gens : ℕ → Except PyExc GenResult) : List Request × Option PyExc :=
  match ps with
  | Except.error e => ([Request.getPs], some e)
  | Except.ok psr =>
    let loaded := get_loaded_models psr
    if loaded = [] then ([Request.getPs], none)
    else
      (Request.getPs :: (evictAll m gens (loaded.map ModelEntry.name) 0).1,
        (evictAll m gens (loaded.map ModelEntry.name) 0).2)

/-- A tick environment in which every exception the outside world injects
is of the catchable kind (`Exception`), never `KeyboardInterrupt`. -/
def TickEnv.catchableOnly (e : TickEnv) : Prop :=
  e.sample ≠ Except.error PyExc.keyboardInterrupt ∧
  e.ps ≠ Except.error PyExc.keyboardInterrupt ∧
  ∀ i, e.gens i ≠ Except.error PyExc.keyboardInterrupt

/-! ### Helper lemmas -/

lemma tickOutcome_eq_slept (m : VRAMManager) (r : TickRec)
    (h : r.exc ≠ some PyExc.keyboardInterrupt) :
    tickOutcome m r = TickOutcome.slept m.interval := by
  unfold tickOutcome
  cases he : r.exc with
  | none => rfl
  | some e =>
    cases e with
    | exception => rfl
    | keyboardInterrupt => exact absurd he h

lemma unload_model_exc_ne_interrupt (m : VRAMManager) (name : Option String)
    (genv : Except PyExc GenResult) (h : genv ≠ Except.error PyExc.keyboardInterrupt) :
    (unload_model m name genv).2 ≠ Except.error PyExc.keyboardInterrupt := by
  by_cases hd : m.dry_run
  · simp [unload_model, hd]
  · cases genv with
    | error e =>
      cases e with
      | exception => simp [unload_model, hd]
      | keyboardInterrupt => exact absurd rfl h
    | ok g =>
      cases g with
      | raised => simp [unload_model, hd]
      | response status => by_cases hs : status = 200 <;> simp [unload_model, hd, hs]

lemma evictAll_exc_ne_interrupt (m : VRAMManager) (gens : ℕ → Except PyExc GenResult)
    (h : ∀ i, gens i ≠ Except.error PyExc.keyboardInterrupt) :
    ∀ (names : List (Option String)) (i : ℕ),
      (evictAll m gens names i).2 ≠ some PyExc.keyboardInterrupt := by
  intro names
  induction names with
  | nil => intro i; simp [evictAll]
  | cons name rest ih =>
    intro i
    unfold evictAll
    cases hu : (unload_model m name (gens i)).2 with
    | error e =>
      have hne := unload_model_exc_ne_interrupt m name (gens i) (h i)
      rw [hu] at hne
      simp only [ne_eq, Except.error.injEq] at hne
      simp [hu, hne]
    | ok lg => simpa [hu] using ih (i + 1)

lemma runTick_exc_ne_interrupt (m : VRAMManager) (env : TickEnv)
    (h : env.catchableOnly) : (runTick m env).exc ≠ some PyExc.keyboardInterrupt := by
  obtain ⟨hs, hp, hg⟩ := h
  unfold runTick
  cases he : env.sample with
  | error e =>
    cases e with
    | exception => simp
    | keyboardInterrupt => exact absurd he hs
  | ok smi =>
    by_cases h1 : get_vram_usage smi = 0 ∧ m.system ≠ "Darwin"
    · simp [h1]
    · by_cases h2 : get_vram_usage smi > (m.threshold_mb : ℚ)
      · simp only [h1, if_false, h2, if_true]
        cases hps : env.ps with
        | error e =>
          cases e with
          | exception => simp
          | keyboardInterrupt => exact absurd hps hp
        | ok psr =>
          by_cases hl : get_loaded_models psr = []
          · simp [hl]
          · simp only [hl, if_false]
            exact evictAll_exc_ne_interrupt m env.gens hg _ 0
      · simp [h1, h2]

lemma unload_model_congr (m1 m2 : VRAMManager) (name : Option String)
    (genv : Except PyExc GenResult) (h : m1.dry_run = m2.dry_run) :
    unload_model m1 name genv = unload_model m2 name genv := by
  unfold unload_model
  rw [h]

lemma evictAll_congr (m1 m2 : VRAMManager) (gens : ℕ → Except PyExc GenResult)
    (h : m1.dry_run = m2.dry_run) :
    ∀ (names : List (Option String)) (i : ℕ),
      evictAll m1 gens names i = evictAll m2 gens names i := by
  intro names
  induction names with
  | nil => intro i; rfl
  | cons name rest ih =>
    intro i
    unfold evictAll
    rw [unload_model_congr m1 m2 name (gens i) h, ih (i + 1)]

lemma evictAll_all_ok (m : VRAMManager) (hd : m.dry_run = false) :
    ∀ (names : List (Option String)) (i : ℕ),
      evictAll m (fun _ => Except.ok (GenResult.response 200)) names i =
        (names.map (fun n => Request.postGenerate n 0), none) := by
  intro names
  induction names with
  | nil => intro i; rfl
  | cons name rest ih =>
    intro i
    unfold evictAll
    simp [unload_model, hd, ih (i + 1)]

/-! ### Claim theorems -/

/-- C2: for every sampled usage value `s` and every threshold `t` of the
configuration domain (the spec's positive thresholds, extended to the 0
edge), the tick decision of `monitor_loop` triggers a remediation pass iff
`s > t` strictly; in particular a sample exactly equal to the threshold
never triggers — the latter for every threshold whatsoever. -/
theorem remediationTriggered_iff_gt_threshold :
    (∀ (s : ℚ) (t : ℤ) (sys : String), 0 ≤ t →
      (remediationTriggered s t sys = true ↔ (t : ℚ) < s)) ∧
    (∀ (t : ℤ) (sys : String), remediationTriggered ((t : ℤ) : ℚ) t sys = false) := by
  constructor
  · intro s t sys ht
    unfold remediationTriggered
    by_cases hs : s = 0
    · subst hs
      have h1 : ¬((t : ℚ) < 0) := not_lt.mpr (by exact_mod_cast ht)
      simp [gt_iff_lt, h1]
    · simp only [hs, false_and, if_false, gt_iff_lt]
      by_cases h2 : (t : ℚ) < s <;> simp [h2]
  · intro t sys
    unfold remediationTriggered
    simp

/-- C2 witness: sample 5 against threshold 3 triggers (5 > 3); sample 3
against threshold 3 does not. -/
theorem remediationTriggered_iff_gt_threshold_witness :
    ((0 : ℤ) ≤ 3 ∧ (remediationTriggered 5 3 "Linux" = true ↔ ((3 : ℤ) : ℚ) < 5)) ∧
    remediationTriggered ((3 : ℤ) : ℚ) 3 "Linux" = false :=
  ⟨⟨by decide, remediationTriggered_iff_gt_threshold.1 5 3 "Linux" (by decide)⟩,
   remediationTriggered_iff_gt_threshold.2 3 "Linux"⟩

/-- C3: a tick whose sample evaluates to exactly zero makes no outbound
call at all — no model listing, no eviction — for every threshold of the
configuration domain (non-negative, including threshold 0) on every
platform; moreover on a non-Darwin platform this holds for every
threshold value whatsoever. -/
theorem runTick_zero_sample_no_requests :
    (∀ (m : VRAMManager) (env : TickEnv) (smi : SmiResult),
      env.sample = Except.ok smi → get_vram_usage smi = 0 →
      0 ≤ m.threshold_mb → (runTick m env).requests = []) ∧
    (∀ (m : VRAMManager) (env : TickEnv) (smi : SmiResult),
      env.sample = Except.ok smi → get_vram_usage smi = 0 →
      m.system ≠ "Darwin" → (runTick m env).requests = []) := by
  constructor
  · intro m env smi hsample hzero ht
    unfold runTick
    rw [hsample]
    by_cases hd : m.system ≠ "Darwin"
    · simp [hzero, hd]
    · have hts : ¬((0 : ℚ) > (m.threshold_mb : ℚ)) := by
        simp only [gt_iff_lt, not_lt]
        exact_mod_cast ht
      simp [hzero, hd, hts]
  · intro m env smi hsample hzero hdar
    unfold runTick
    rw [hsample]
    simp [hzero, hdar]

/-- C3 witness: a zero sample (tool absent) with threshold 0 on Darwin,
and a zero sample with a negative threshold on Linux; in both cases the
tick issues no request even though the service has a model loaded. -/
theorem runTick_zero_sample_no_requests_witness :
    (runTick ⟨0, "http://localhost:11434", 5, false, "Darwin"⟩
      ⟨Except.ok SmiResult.notFound,
        Except.ok (PsResult.response 200 (PsBody.json (some [⟨some "llama3"⟩]))),
        fun _ => Except.ok (GenResult.response 200)⟩).requests = [] ∧
    (runTick ⟨-7, "http://localhost:11434", 5, false, "Linux"⟩
      ⟨Except.ok SmiResult.notFound,
        Except.ok (PsResult.response 200 (PsBody.json (some [⟨some "llama3"⟩]))),
        fun _ => Except.ok (GenResult.response 200)⟩).requests = [] :=
  ⟨runTick_zero_sample_no_requests.1 _ _ SmiResult.notFound rfl rfl (by decide),
   runTick_zero_sample_no_requests.2 _ _ SmiResult.notFound rfl rfl (by decide)⟩

/-- C4: `get_vram_usage` is a total function of the tool's behavior — it
never raises to its caller — and on every underlying failure it returns
exactly `0`: the tool missing (`FileNotFoundError`), any other exception
out of the invocation, a non-zero exit code, empty output, and malformed
(non-numeric) output. -/
theorem get_vram_usage_error_paths_zero :
    get_vram_usage SmiResult.notFound = 0 ∧
    get_vram_usage SmiResult.raised = 0 ∧
    (∀ (rc : ℤ) (out : PyStr), rc ≠ 0 →
      get_vram_usage (SmiResult.completed rc out) = 0) ∧
    (∀ (rc : ℤ) (out : PyStr), pyStrip out = [] →
      get_vram_usage (SmiResult.completed rc out) = 0) ∧
    (∀ (rc : ℤ) (out : PyStr), (splitLines (pyStrip out)).mapM pyFloat = none →
      get_vram_usage (SmiResult.completed rc out) = 0) := by
  refine ⟨rfl, rfl, ?_, ?_, ?_⟩
  · intro rc out h
    simp [get_vram_usage, h]
  · intro rc out h
    simp [get_vram_usage, h]
  · intro rc out h
    have hdef : get_vram_usage (SmiResult.completed rc out) =
        if rc = 0 ∧ pyStrip out ≠ [] then
          match (splitLines (pyStrip out)).mapM pyFloat with
          | some vals => vals.sum
          | none => 0
        else 0 := rfl
    rw [hdef, h]
    simp

/-- C4 witness: non-zero exit, empty output, malformed output. -/
theorem get_vram_usage_error_paths_zero_witness :
    get_vram_usage (SmiResult.completed 1 ['5', '1', '2']) = 0 ∧
    get_vram_usage (SmiResult.completed 0 []) = 0 ∧
    get_vram_usage (SmiResult.completed 0 ['o', 'o', 'p', 's']) = 0 :=
  ⟨get_vram_usage_error_paths_zero.2.2.1 1 _ (by decide),
   get_vram_usage_error_paths_zero.2.2.2.1 0 [] (by decide),
   get_vram_usage_error_paths_zero.2.2.2.2 0 _ (by decide)⟩

/-- C7: with the dry-run flag set, `unload_model` performs zero outbound
network call attempts — the generate interaction is never consulted, even
if it would raise — and its outcome under the spec's `evict` abstraction
is `Success`, for every model handle. -/
theorem unload_model_dry_run_no_network (m : VRAMManager) (name : Option String)
    (genv : Except PyExc GenResult) (h : m.dry_run = true) :
    (unload_model m name genv).1 = [] ∧
    (unload_model m name genv).2.map UnloadLog.outcome =
      Except.ok EvictOutcome.success := by
  simp [unload_model, h, Except.map, UnloadLog.outcome]

/-- C7 witness: dry-run eviction of a named model with an environment
that would raise `KeyboardInterrupt` if the network were touched. -/
theorem unload_model_dry_run_no_network_witness :
    (unload_model ⟨20480, "http://localhost:11434", 5, true, "Linux"⟩
      (some "llama3") (Except.error PyExc.keyboardInterrupt)).1 = [] ∧
    (unload_model ⟨20480, "http://localhost:11434", 5, true, "Linux"⟩
      (some "llama3") (Except.error PyExc.keyboardInterrupt)).2.map
        UnloadLog.outcome = Except.ok EvictOutcome.success :=
  unload_model_dry_run_no_network _ _ _ rfl

/-- C9: when the tool exits with code 0 and every line of its output is a
numeric literal, `get_vram_usage` returns exactly the sum of all the
per-device values — one aggregate, no per-device breakdown. -/
theorem get_vram_usage_sums_devices (out : PyStr) (vals : List ℚ)
    (h : (splitLines (pyStrip out)).mapM pyFloat = some vals) :
    get_vram_usage (SmiResult.completed 0 out) = vals.sum := by
  have hne : pyStrip out ≠ [] := by
    intro he
    rw [he] at h
    simp [splitLines, pyFloat, pyStrip, List.mapM, List.mapM.loop] at h
  have hdef : get_vram_usage (SmiResult.completed 0 out) =
      if (0 : ℤ) = 0 ∧ pyStrip out ≠ [] then
        match (splitLines (pyStrip out)).mapM pyFloat with
        | some vals => vals.sum
        | none => 0
      else 0 := rfl
  rw [hdef, h]
  simp [hne]

/-- C9 witness: two devices, 1024 MB and 2048 MB, summed to 3072 MB. -/
theorem get_vram_usage_sums_devices_witness :
    get_vram_usage
      (SmiResult.completed 0 ['1', '0', '2', '4', '\n', '2', '0', '4', '8']) = 3072 :=
  (get_vram_usage_sums_devices _ [1024, 2048] (by decide)).trans
    (by norm_num [List.sum_cons, List.sum_nil])

/-- C1: in continuous mode, for every finite sequence of tick
environments in which every injected exception is of the catchable kind
(`Exception`, never `KeyboardInterrupt`), the loop executes one tick per
environment — no failing tick terminates it: every tick, including those
whose sampling, listing or eviction raises, ends with the configured
inter-tick sleep, and after the whole sequence the loop is still
running, so the next tick still executes. -/
theorem monitor_loop_catchable_errors_contained (m : VRAMManager) :
    ∀ (envs : List TickEnv), (∀ e ∈ envs, e.catchableOnly) →
      (monitor_loop m envs).1.length = envs.length ∧
      (∀ p ∈ (monitor_loop m envs).1, p.2 = TickOutcome.slept m.interval) ∧
      (monitor_loop m envs).2 = LoopStatus.running := by
  intro envs
  induction envs with
  | nil => exact fun _ => ⟨rfl, by simp [monitor_loop], rfl⟩
  | cons env rest ih =>
    intro h
    have henv : env.catchableOnly := h env (List.mem_cons_self env rest)
    have hrest : ∀ e ∈ rest, e.catchableOnly :=
      fun e he => h e (List.mem_cons_of_mem env he)
    have hout : tickOutcome m (runTick m env) = TickOutcome.slept m.interval :=
      tickOutcome_eq_slept m _ (runTick_exc_ne_interrupt m env henv)
    obtain ⟨ih1, ih2, ih3⟩ := ih hrest
    refine ⟨?_, ?_, ?_⟩
    · simp [monitor_loop, hout, ih1]
    · intro p hp
      simp only [monitor_loop, hout, List.mem_cons] at hp
      rcases hp with hp1 | hp2
      · rw [hp1]
      · exact ih2 p hp2
    · simp [monitor_loop, hout, ih3]

/-- C1 witness: two ticks against a manager with threshold 100 on Linux;
tick 1's sampling raises an `Exception`, tick 2 samples 9999 MB (above
threshold) and its model-listing raises an `Exception`; both ticks end in
the 5-second sleep and the loop is still running. -/
theorem monitor_loop_catchable_errors_contained_witness :
    (monitor_loop ⟨100, "http://localhost:11434", 5, false, "Linux"⟩
      [⟨Except.error PyExc.exception,
          Except.ok (PsResult.response 200 (PsBody.json (some []))),
          fun _ => Except.error PyExc.exception⟩,
        ⟨Except.ok (SmiResult.completed 0 ['9', '9', '9', '9']),
          Except.error PyExc.exception,
          fun _ => Except.ok GenResult.raised⟩]).1.length = 2 ∧
    (∀ p ∈ (monitor_loop ⟨100, "http://localhost:11434", 5, false, "Linux"⟩
      [⟨Except.error PyExc.exception,
          Except.ok (PsResult.response 200 (PsBody.json (some []))),
          fun _ => Except.error PyExc.exception⟩,
        ⟨Except.ok (SmiResult.completed 0 ['9', '9', '9', '9']),
          Except.error PyExc.exception,
          fun _ => Except.ok GenResult.raised⟩]).1, p.2 = TickOutcome.slept 5) ∧
    (monitor_loop ⟨100, "http://localhost:11434", 5, false, "Linux"⟩
      [⟨Except.error PyExc.exception,
          Except.ok (PsResult.response 200 (PsBody.json (some []))),
          fun _ => Except.error PyExc.exception⟩,
        ⟨Except.ok (SmiResult.completed 0 ['9', '9', '9', '9']),
          Except.error PyExc.exception,
          fun _ => Except.ok GenResult.raised⟩]).2 = LoopStatus.running :=
  monitor_loop_catchable_errors_contained _ _ (by
    intro e he
    simp only [List.mem_cons, List.not_mem_nil, or_false] at he
    rcases he with rfl | rfl
    · exact ⟨by simp, by simp, fun i => by simp⟩
    · exact ⟨by simp, by simp, fun i => by simp⟩)

/-- C5: `get_loaded_models` is a total function of the service's behavior
— it never raises — and returns the empty list on a connection failure
(any exception), on every non-200 status, on an unparsable body, and on a
body without a `models` key; and on any tick whose listing returns the
empty list, the tick makes no eviction call attempt (every outbound call
of the tick is the listing itself), even when the sample exceeds the
threshold. -/
theorem get_loaded_models_failure_empty :
    get_loaded_models PsResult.raised = [] ∧
    (∀ (status : ℕ) (body : PsBody), status ≠ 200 →
      get_loaded_models (PsResult.response status body) = []) ∧
    get_loaded_models (PsResult.response 200 PsBody.badJson) = [] ∧
    get_loaded_models (PsResult.response 200 (PsBody.json none)) = [] ∧
    (∀ (m : VRAMManager) (env : TickEnv) (psr : PsResult),
      env.ps = Except.ok psr → get_loaded_models psr = [] →
      ∀ q ∈ (runTick m env).requests, q = Request.getPs) := by
  refine ⟨rfl, ?_, rfl, rfl, ?_⟩
  · intro status body h
    simp [get_loaded_models, h]
  · intro m env psr hps hempty q hq
    unfold runTick at hq
    cases hsample : env.sample with
    | error e =>
      rw [hsample] at hq
      simp at hq
    | ok smi =>
      rw [hsample] at hq
      by_cases h1 : get_vram_usage smi = 0 ∧ m.system ≠ "Darwin"
      · simp [h1] at hq
      · by_cases h2 : get_vram_usage smi > (m.threshold_mb : ℚ)
        · rw [hps] at hq
          simp only [h1, if_false, h2, if_true, hempty] at hq
          simpa using hq
        · simp [h1, h2] at hq

/-- C5 witness: the service answers `GET /api/ps` with HTTP 500 and an
unparsable body; the listing returns the empty list, and a tick whose
sample 9999 MB exceeds the threshold 100 MB makes the listing call and
nothing else. -/
theorem get_loaded_models_failure_empty_witness :
    get_loaded_models (PsResult.response 500 PsBody.badJson) = [] ∧
    (∀ q ∈ (runTick ⟨100, "http://localhost:11434", 5, false, "Linux"⟩
      ⟨Except.ok (SmiResult.completed 0 ['9', '9', '9', '9']),
        Except.ok (PsResult.response 500 PsBody.badJson),
        fun _ => Except.ok (GenResult.response 200)⟩).requests,
      q = Request.getPs) :=
  ⟨get_loaded_models_failure_empty.2.1 500 PsBody.badJson (by decide),
   get_loaded_models_failure_empty.2.2.2.2 _ _
     (PsResult.response 500 PsBody.badJson) rfl rfl⟩

/-- C6: in one-shot (`--clear-now`) mode against a working service that
reports `models`, the program makes exactly one listing call followed by
exactly one eviction call attempt per reported model, sequentially in the
order reported, each carrying that model's name and `keep_alive = 0`, and
no exception escapes; and the threshold plays no role: two managers
differing only in their threshold run one-shot mode identically against
every environment. -/
theorem clear_now_one_shot :
    (∀ (t i : ℤ) (url sys : String) (models : List ModelEntry),
      clear_now ⟨t, url, i, false, sys⟩
        (Except.ok (PsResult.response 200 (PsBody.json (some models))))
        (fun _ => Except.ok (GenResult.response 200)) =
      (Request.getPs :: models.map (fun mo => Request.postGenerate mo.name 0),
        none)) ∧
    (∀ (t1 t2 i : ℤ) (url sys : String) (dry : Bool)
      (ps : Except PyExc PsResult) (gens : ℕ → Except PyExc GenResult),
      clear_now ⟨t1, url, i, dry, sys⟩ ps gens =
      clear_now ⟨t2, url, i, dry, sys⟩ ps gens) := by
  constructor
  · intro t i url sys models
    by_cases hm : models = []
    · subst hm; rfl
    · have he := evictAll_all_ok ⟨t, url, i, false, sys⟩ rfl
        (models.map ModelEntry.name) 0
      simp [clear_now, get_loaded_models, hm, he, List.map_map, Function.comp]
  · intro t1 t2 i url sys dry ps gens
    cases ps with
    | error e => rfl
    | ok psr =>
      unfold clear_now
      by_cases hl : get_loaded_models psr = []
      · simp [hl]
      · simp only [hl, if_false]
        rw [evictAll_congr ⟨t1, url, i, dry, sys⟩ ⟨t2, url, i, dry, sys⟩ gens rfl]

/-- C10: for every positive threshold, one tick behaves identically under
every value of `platform.system()`: the pure trigger decision is the same
function of the sample, and the whole tick record (sample value, outbound
calls, escaping exception) of two managers differing only in the platform
string is equal on every environment — the Darwin special case can only
change which log branch is taken. -/
theorem runTick_platform_independent (t i : ℤ) (url : String) (dry : Bool)
    (s1 s2 : String) (ht : 0 < t) :
    (∀ vram : ℚ, remediationTriggered vram t s1 = remediationTriggered vram t s2) ∧
    (∀ env : TickEnv,
      runTick ⟨t, url, i, dry, s1⟩ env = runTick ⟨t, url, i, dry, s2⟩ env) := by
  have hts : ¬((0 : ℚ) > (t : ℚ)) := by
    simp only [gt_iff_lt, not_lt]
    exact_mod_cast ht.le
  constructor
  · intro vram
    unfold remediationTriggered
    by_cases hv : vram = 0
    · subst hv
      simp [hts]
    · simp [hv]
  · intro env
    unfold runTick
    cases env.sample with
    | error e => rfl
    | ok smi =>
      have hev := evictAll_congr ⟨t, url, i, dry, s1⟩ ⟨t, url, i, dry, s2⟩
        env.gens rfl
      by_cases hv : get_vram_usage smi = 0
      · simp [hv, hts]
      · by_cases h2 : get_vram_usage smi > ((t : ℤ) : ℚ)
        · simp only [hv, false_and, if_false, h2, if_true]
          cases env.ps with
          | error e => rfl
          | ok psr =>
            by_cases hl : get_loaded_models psr = []
            · simp [hl]
            · simp [hl, hev]
        · simp [hv, h2]

/-- C10 witness: threshold 1000, Darwin versus Linux, on a tick whose
sampling finds no tool. -/
theorem runTick_platform_independent_witness :
    (0 : ℤ) < 1000 ∧
    runTick ⟨1000, "http://localhost:11434", 5, false, "Darwin"⟩
      ⟨Except.ok SmiResult.notFound, Except.ok PsResult.raised,
        fun _ => Except.ok GenResult.raised⟩ =
    runTick ⟨1000, "http://localhost:11434", 5, false, "Linux"⟩
      ⟨Except.ok SmiResult.notFound, Except.ok PsResult.raised,
        fun _ => Except.ok GenResult.raised⟩ :=
  ⟨by decide,
   (runTick_platform_independent 1000 5 "http://localhost:11434" false
     "Darwin" "Linux" (by decide)).2 _⟩

/-- Service behavior reporting the given resident models on a 200
response to `GET /api/ps`. -/
def scenarioPs (ms : List ModelEntry) : Except PyExc PsResult :=
  Except.ok (PsResult.response 200 (PsBody.json (some ms)))

/-- Service behavior accepting every `POST /api/generate` with 200. -/
def scenarioGens : ℕ → Except PyExc GenResult :=
  fun _ => Except.ok (GenResult.response 200)

/-- Tick 1 of the C8 scenario: the tool reports 500 MB; the service
reports no resident model. -/
def scenarioTick1 : TickEnv :=
  ⟨Except.ok (SmiResult.completed 0 ['5', '0', '0']), scenarioPs [], scenarioGens⟩

/-- Tick 2 of the C8 scenario: the tool reports 1500 MB; the service
reports the two resident models `a` then `b`. -/
def scenarioTick2 (a b : ModelEntry) : TickEnv :=
  ⟨Except.ok (SmiResult.completed 0 ['1', '5', '0', '0']), scenarioPs [a, b],
    scenarioGens⟩

/-- Tick 3 of the C8 scenario: the tool reports 500 MB again; the service
reports no resident model. -/
def scenarioTick3 : TickEnv :=
  ⟨Except.ok (SmiResult.completed 0 ['5', '0', '0']), scenarioPs [], scenarioGens⟩

/-- C8: continuous mode with threshold 1000 and interval 1 over the
sampled sequence [500, 1500, 500], where the service reports two resident
models only on tick 2: ticks 1 and 3 make no outbound call at all, tick 2
makes exactly one remediation pass — the listing call followed by the two
eviction calls in the order the service reported the models, each with
`keep_alive = 0` — every tick ends in the 1-second sleep, and the loop is
still running; this holds on every platform and for any two reported
models. -/
theorem monitor_loop_three_tick_scenario (url sys : String) (a b : ModelEntry) :
    monitor_loop ⟨1000, url, 1, false, sys⟩
      [scenarioTick1, scenarioTick2 a b, scenarioTick3] =
    ([(⟨some 500, [], none⟩, TickOutcome.slept 1),
      (⟨some 1500,
        [Request.getPs, Request.postGenerate a.name 0,
          Request.postGenerate b.name 0], none⟩, TickOutcome.slept 1),
      (⟨some 500, [], none⟩, TickOutcome.slept 1)], LoopStatus.running) := by
  have h5 : get_vram_usage (SmiResult.completed 0 ['5', '0', '0']) = 500 := by
    simp [get_vram_usage, pyStrip, splitLines, pyFloat, pyFloatExp, digitsToNat,
      List.mapM, List.mapM.loop]
  have h15 : get_vram_usage (SmiResult.completed 0 ['1', '5', '0', '0']) = 1500 := by
    simp [get_vram_usage, pyStrip, splitLines, pyFloat, pyFloatExp, digitsToNat,
      List.mapM, List.mapM.loop]
  have hne : ([a, b] : List ModelEntry) ≠ [] := by simp
  norm_num [monitor_loop, runTick, tickOutcome, get_loaded_models, evictAll,
    unload_model, scenarioTick1, scenarioTick2, scenarioTick3, scenarioPs,
    scenarioGens, h5, h15, hne]

end VramGuard
